import Mathlib

/-!
Verification development for the fake vehicle hardware facade
(`FakeVehicleHardware.cpp`): an in-memory vehicle property store with
special-cased property handling, pending get/set request batching, and
per-key recurrent sampling.

The property store (`VehiclePropertyStore`), the recurrent timer and the
user-HAL / OBD2 helpers are external collaborators whose sources are not
part of this tree; they are modelled from the specification document.
Everything else is translated directly from `FakeVehicleHardware.cpp`.

Machine integers (property ids, area ids, timestamps) are modelled as
unbounded `Int`: the code performs no arithmetic on them other than
equality comparisons and fresh-clock stamping, so 32/64-bit wraparound is
never exercised.  C++ `float`/`double` payloads are modelled as `Rat`.
-/

namespace FakeVehicle

/-- AIDL `StatusCode` values used by the facade. -/
inductive StatusCode where
  | OK
  | TRY_AGAIN
  | INVALID_ARG
  | NOT_AVAILABLE
  | ACCESS_DENIED
  | INTERNAL_ERROR
deriving DecidableEq, Repr

/-- AIDL `VehiclePropertyStatus`. -/
inductive VehiclePropertyStatus where
  | AVAILABLE
  | UNAVAILABLE
  | ERROR
deriving DecidableEq, Repr

/-- AIDL `RawPropValues`: the typed payload of a property value.  C++
floats are modelled as `Rat`, bytes as `Nat`. -/
structure RawPropValues where
  int32Values : List Int
  int64Values : List Int
  floatValues : List Rat
  stringValue : String
  byteValues : List Nat
deriving DecidableEq, Repr

/-- The empty payload (all vectors empty, empty string). -/
def emptyRaw : RawPropValues :=
  { int32Values := [], int64Values := [], floatValues := [], stringValue := "",
    byteValues := [] }

/-- AIDL `VehiclePropValue`. -/
structure VehiclePropValue where
  prop : Int
  areaId : Int
  timestamp : Int
  status : VehiclePropertyStatus
  value : RawPropValues
deriving DecidableEq, Repr

/-- Source `PropIdAreaId`, the key of the store and of the facade's side maps. -/
structure PropIdAreaId where
  propId : Int
  areaId : Int
deriving DecidableEq, Repr

/-- The key of a value: `(value.prop, value.areaId)`. -/
def keyOf (v : VehiclePropValue) : PropIdAreaId :=
  { propId := v.prop, areaId := v.areaId }

/-- The value with its timestamp zeroed, for timestamp-ignoring comparison. -/
def clearTimestamp (v : VehiclePropValue) : VehiclePropValue :=
  { v with timestamp := 0 }

/-- A key-bearing probe value, as built by C++ designated initializers
that set only `prop` and `areaId` (other fields default-initialized). -/
def probeValue (p a : Int) : VehiclePropValue :=
  { prop := p, areaId := a, timestamp := 0, status := .AVAILABLE, value := emptyRaw }

/-- Equality of two values ignoring the timestamp field. -/
def eqIgnoreTimestamp (a b : VehiclePropValue) : Prop :=
  clearTimestamp a = clearTimestamp b

instance (a b : VehiclePropValue) : Decidable (eqIgnoreTimestamp a b) := by
  unfold eqIgnoreTimestamp; infer_instance

/-- Association-list lookup keyed by `PropIdAreaId`. -/
def alookup {β : Type} : List (PropIdAreaId × β) → PropIdAreaId → Option β
  | [], _ => none
  | (k, v) :: rest, key => if k = key then some v else alookup rest key

/-- Remove every binding of `key`. -/
def aremove {β : Type} : List (PropIdAreaId × β) → PropIdAreaId → List (PropIdAreaId × β)
  | [], _ => []
  | (k, v) :: rest, key =>
      if k = key then aremove rest key else (k, v) :: aremove rest key

/-- Set (insert or overwrite) the binding of `key`, like `map[key] = v`. -/
def aset {β : Type} (l : List (PropIdAreaId × β)) (key : PropIdAreaId) (v : β) :
    List (PropIdAreaId × β) :=
  (key, v) :: aremove l key

/-- Remove every binding whose key has the given property id
(`removeValuesForProperty`). -/
def aremoveProp {β : Type} : List (PropIdAreaId × β) → Int → List (PropIdAreaId × β)
  | [], _ => []
  | (k, v) :: rest, p =>
      if k.propId = p then aremoveProp rest p else (k, v) :: aremoveProp rest p

theorem alookup_aset_self {β : Type} (l : List (PropIdAreaId × β)) (k : PropIdAreaId)
    (v : β) : alookup (aset l k v) k = some v := by
  simp [aset, alookup]

theorem alookup_aremove {β : Type} (l : List (PropIdAreaId × β)) (k key : PropIdAreaId) :
    alookup (aremove l k) key = if key = k then none else alookup l key := by
  induction l with
  | nil => simp [aremove, alookup]
  | cons hd tl ih =>
      obtain ⟨k', v'⟩ := hd
      by_cases h1 : k' = k
      · subst h1
        by_cases h2 : key = k'
        · subst h2
          simp [aremove, alookup, ih]
        · have h3 : k' ≠ key := Ne.symm h2
          simp [aremove, alookup, ih, h2, h3]
      · by_cases h2 : k' = key
        · subst h2
          simp [aremove, alookup, ih, h1]
        · simp [aremove, alookup, ih, h1, h2]

theorem alookup_aset_ne {β : Type} (l : List (PropIdAreaId × β)) (k key : PropIdAreaId)
    (v : β) (h : key ≠ k) : alookup (aset l k v) key = alookup l key := by
  simp [aset, alookup, alookup_aremove, h, Ne.symm h]

theorem alookup_aremoveProp {β : Type} (l : List (PropIdAreaId × β)) (p : Int)
    (key : PropIdAreaId) :
    alookup (aremoveProp l p) key = if key.propId = p then none else alookup l key := by
  induction l with
  | nil => simp [aremoveProp, alookup]
  | cons hd tl ih =>
      obtain ⟨k', v'⟩ := hd
      by_cases h1 : k'.propId = p
      · by_cases h2 : k' = key
        · subst h2; simp [aremoveProp, alookup, h1, ih]
        · simp [aremoveProp, alookup, h1, h2, ih]
      · by_cases h2 : k' = key
        · subst h2; simp [aremoveProp, alookup, h1, ih]
        · simp [aremoveProp, alookup, h1, h2, ih]

/-- Static per-property configuration.  `areaIds = []` means the property
is global / unrestricted (`PropertyConfig` with empty area set). -/
structure PropConfig where
  prop : Int
  areaIds : List Int
deriving DecidableEq, Repr

/-- First registered configuration for a property id, if any. -/
def configFor : List PropConfig → Int → Option PropConfig
  | [], _ => none
  | c :: rest, p => if c.prop = p then some c else configFor rest p

/-- Whether a write of key `(p, a)` passes the store's registration and
area-id validation. -/
def configAllows (cfgs : List PropConfig) (p a : Int) : Bool :=
  match configFor cfgs p with
  | none => false
  | some c => c.areaIds.isEmpty || c.areaIds.contains a

/-- Modelled from the spec: `VehiclePropertyStore`, the concurrent map
from `(property id, area id)` to the current value plus per-property
configuration.  (Token functions are used only for the OBD2 freeze frame,
which the facade treats as a special black-box property, so they are not
modelled.)  The store's source is not part of this tree. -/
structure PropStore where
  configs : List PropConfig
  values : List (PropIdAreaId × VehiclePropValue)
deriving DecidableEq, Repr

/-- Modelled from the spec: `VehiclePropertyStore::writeValue`.  Validates
that the property is registered and the area id permitted
(`INVALID_ARG` otherwise); if the stored value is unchanged (ignoring
timestamp) and `updateStatus` is false, succeeds without overwriting and
without firing a notification; otherwise replaces the stored value and
fires the change notification with the new value.  The fired notification
is returned as the `Option VehiclePropValue` component. -/
def writeValue (store : PropStore) (v : VehiclePropValue) (updateStatus : Bool) :
    Except StatusCode (PropStore × Option VehiclePropValue) :=
  if configAllows store.configs v.prop v.areaId = false then .error .INVALID_ARG
  else
    match alookup store.values (keyOf v) with
    | some old =>
        if eqIgnoreTimestamp old v ∧ updateStatus = false then .ok (store, none)
        else .ok ({ store with values := aset store.values (keyOf v) v }, some v)
    | none => .ok ({ store with values := aset store.values (keyOf v) v }, some v)

/-- Modelled from the spec: `VehiclePropertyStore::readValue` — fails with
`NOT_AVAILABLE` if no value is stored for the resolved key, otherwise
returns a copy of the current value. -/
def readValue (store : PropStore) (p a : Int) : Except StatusCode VehiclePropValue :=
  match alookup store.values { propId := p, areaId := a } with
  | none => .error .NOT_AVAILABLE
  | some v => .ok v

/-- Modelled from the spec: `VehiclePropertyStore::removeValue` — deletes
the stored instance for the value's key. -/
def removeValue (store : PropStore) (v : VehiclePropValue) : PropStore :=
  { store with values := aremove store.values (keyOf v) }

/-- Modelled from the spec: `VehiclePropertyStore::removeValuesForProperty`
— deletes all stored instances for a property id. -/
def removeValuesForProperty (store : PropStore) (p : Int) : PropStore :=
  { store with values := aremoveProp store.values p }

/-- AIDL `VehicleApPowerStateReport` (the states the facade switches on). -/
inductive VehicleApPowerStateReport where
  | WAIT_FOR_VHAL
  | DEEP_SLEEP_ENTRY
  | DEEP_SLEEP_EXIT
  | SHUTDOWN_POSTPONE
  | SHUTDOWN_START
  | ON
  | SHUTDOWN_PREPARE
  | SHUTDOWN_CANCELLED
  | HIBERNATION_ENTRY
  | HIBERNATION_EXIT
deriving DecidableEq, Repr

/-- Integer value of each `VehicleApPowerStateReport` state. -/
def VehicleApPowerStateReport.toInt : VehicleApPowerStateReport → Int
  | .WAIT_FOR_VHAL => 1
  | .DEEP_SLEEP_ENTRY => 2
  | .DEEP_SLEEP_EXIT => 3
  | .SHUTDOWN_POSTPONE => 4
  | .SHUTDOWN_START => 5
  | .ON => 6
  | .SHUTDOWN_PREPARE => 7
  | .SHUTDOWN_CANCELLED => 8
  | .HIBERNATION_ENTRY => 9
  | .HIBERNATION_EXIT => 10

/-- AIDL `VehicleApPowerStateReq` (only the states the facade writes). -/
inductive VehicleApPowerStateReq where
  | ON
  | SHUTDOWN_PREPARE
  | CANCEL_SHUTDOWN
  | FINISHED
deriving DecidableEq, Repr

/-- Integer value of each `VehicleApPowerStateReq` state. -/
def VehicleApPowerStateReq.toInt : VehicleApPowerStateReq → Int
  | .ON => 0
  | .SHUTDOWN_PREPARE => 1
  | .CANCEL_SHUTDOWN => 2
  | .FINISHED => 3

/-- The static environment of the facade: the property-id constants from
the headers (`PropertyUtils.h`, `TestPropertyUtils.h`, `VehicleHalTypes.h`)
and the behavior of the external collaborators (fake user HAL, fake OBD2
frame helper), none of which are part of this tree.  Modelled from the
spec: the user HAL covers a property range (`userHalSupported`), the OBD2
helper serves the diagnostic frame properties, `HVAC_POWER_PROPERTIES` is
the static list of HVAC-power-gated property ids, and `HVAC_ALL` is the
area id of the HVAC master power switch. -/
structure Env where
  userHalSupported : Int → Bool
  onGetPropertyUserHal : VehiclePropValue → Except StatusCode (Option VehiclePropValue)
  onSetPropertyUserHal : VehiclePropValue → Except StatusCode (Option VehiclePropValue)
  getObd2FreezeFrame : PropStore → VehiclePropValue → Except StatusCode VehiclePropValue
  getObd2DtcInfo : PropStore → Except StatusCode VehiclePropValue
  clearObd2FreezeFrames : PropStore → VehiclePropValue → Except StatusCode PropStore
  OBD2_FREEZE_FRAME : Int
  OBD2_FREEZE_FRAME_INFO : Int
  OBD2_FREEZE_FRAME_CLEAR : Int
  ECHO_REVERSE_BYTES : Int
  AP_POWER_STATE_REPORT : Int
  AP_POWER_STATE_REQ : Int
  VEHICLE_MAP_SERVICE : Int
  HVAC_POWER_ON : Int
  HVAC_ALL : Int
  hvacPowerProperties : List Int

/-- A timer registration inside the modelled `RecurrentTimer`: the action
handle (identified by a fresh numeric id, standing for the C++
`shared_ptr` identity), the captured `(propId, areaId)` key of the refresh
closure, and the firing interval in nanoseconds. -/
structure TimerReg where
  actionId : Nat
  key : PropIdAreaId
  intervalNanos : Int
deriving DecidableEq, Repr

/-- The mutable state of `FakeVehicleHardware`: the server-side property
store, the saved-property snapshots (`mSavedProps`), the
key-to-recurrent-action map (`mRecurrentActions`, actions named by id),
the modelled recurrent-timer registrations, the id counter for fresh
actions, and the single registered property-change listener slot
(`mOnPropertyChangeCallback`, listeners named by id). -/
structure FakeState where
  store : PropStore
  savedProps : List (PropIdAreaId × VehiclePropValue)
  recurrentActions : List (PropIdAreaId × Nat)
  timerRegs : List TimerReg
  nextActionId : Nat
  propertyChangeCallback : Option Nat
deriving DecidableEq

/-- Source `isHvacPropAndHvacNotAvailable`: the property is in
`HVAC_POWER_PROPERTIES` and the stored `HVAC_POWER_ON` value for the
`HVAC_ALL` area reads as a single int32 equal to 0. -/
def isHvacPropAndHvacNotAvailable (env : Env) (store : PropStore) (propId : Int) : Bool :=
  env.hvacPowerProperties.contains propId &&
    match readValue store env.HVAC_POWER_ON env.HVAC_ALL with
    | .ok v => decide (v.value.int32Values = [0])
    | .error _ => false

/-- Source `getUserHalProp`: delegate the get to the fake user HAL; a null value
from the HAL becomes `INTERNAL_ERROR`, otherwise the returned value is
restamped with the current time. -/
def getUserHalProp (env : Env) (now : Int) (value : VehiclePropValue) :
    Except StatusCode VehiclePropValue :=
  match env.onGetPropertyUserHal value with
  | .error e => .error e
  | .ok none => .error .INTERNAL_ERROR
  | .ok (some gotValue) => .ok { gotValue with timestamp := now }

/-- Source `setUserHalProp`: delegate the set to the fake user HAL; if the HAL
returns an updated value, write it into the store. -/
def setUserHalProp (env : Env) (store : PropStore) (value : VehiclePropValue) :
    Except StatusCode PropStore :=
  match env.onSetPropertyUserHal value with
  | .error e => .error e
  | .ok none => .ok store
  | .ok (some updatedValue) =>
      match writeValue store updatedValue false with
      | .error e => .error e
      | .ok (store', _) => .ok store'

/-- Source `getEchoReverseBytes`: read the stored value, restamp it, and reverse
its byte payload. -/
def getEchoReverseBytes (store : PropStore) (now : Int) (value : VehiclePropValue) :
    Except StatusCode VehiclePropValue :=
  match readValue store value.prop value.areaId with
  | .error e => .error e
  | .ok gotValue =>
      .ok { gotValue with
              timestamp := now,
              value := { gotValue.value with byteValues := gotValue.value.byteValues.reverse } }

/-- Source `maybeGetSpecialValue`: the get-side special-property dispatch.
`none` means the property is not special (`isSpecialValue` stays false)
and the caller falls through to the generic store read. -/
def maybeGetSpecialValue (env : Env) (store : PropStore) (now : Int)
    (value : VehiclePropValue) : Option (Except StatusCode VehiclePropValue) :=
  if env.userHalSupported value.prop then some (getUserHalProp env now value)
  else if value.prop = env.OBD2_FREEZE_FRAME then
    some (match env.getObd2FreezeFrame store value with
          | .error e => .error e
          | .ok v => .ok { v with timestamp := now })
  else if value.prop = env.OBD2_FREEZE_FRAME_INFO then
    some (match env.getObd2DtcInfo store with
          | .error e => .error e
          | .ok v => .ok { v with timestamp := now })
  else if value.prop = env.ECHO_REVERSE_BYTES then
    some (getEchoReverseBytes store now value)
  else none

/-- Source `createApPowerStateReq`: a fresh `AP_POWER_STATE_REQ` value — global
area, current timestamp, available, payload `[state, 0]`. -/
def createApPowerStateReq (env : Env) (now : Int) (state : VehicleApPowerStateReq) :
    VehiclePropValue :=
  { prop := env.AP_POWER_STATE_REQ, areaId := 0, timestamp := now,
    status := .AVAILABLE,
    value := { emptyRaw with int32Values := [state.toInt, 0] } }

/-- Source `setApPowerStateReport`: write the report itself into the store, then
switch on the report state (`value.value.int32Values[0]`): the
WAIT_FOR_VHAL group erases all stored `AP_POWER_STATE_REQ` values and
writes a fresh request with state ON (updateStatus true); the
sleep/shutdown-entry group writes a fresh request with state FINISHED
(updateStatus true); any other state is only logged. -/
def setApPowerStateReport (env : Env) (store : PropStore) (now : Int)
    (value : VehiclePropValue) : Except StatusCode PropStore :=
  match writeValue store { value with timestamp := now } false with
  | .error e => .error e
  | .ok (store1, _) =>
      let state := value.value.int32Values.headD 0
      if state = VehicleApPowerStateReport.DEEP_SLEEP_EXIT.toInt ∨
         state = VehicleApPowerStateReport.HIBERNATION_EXIT.toInt ∨
         state = VehicleApPowerStateReport.SHUTDOWN_CANCELLED.toInt ∨
         state = VehicleApPowerStateReport.WAIT_FOR_VHAL.toInt then
        let store2 := removeValuesForProperty store1 env.AP_POWER_STATE_REQ
        match writeValue store2 (createApPowerStateReq env now .ON) true with
        | .error e => .error e
        | .ok (store3, _) => .ok store3
      else if state = VehicleApPowerStateReport.DEEP_SLEEP_ENTRY.toInt ∨
              state = VehicleApPowerStateReport.HIBERNATION_ENTRY.toInt ∨
              state = VehicleApPowerStateReport.SHUTDOWN_START.toInt then
        match writeValue store1 (createApPowerStateReq env now .FINISHED) true with
        | .error e => .error e
        | .ok (store3, _) => .ok store3
      else .ok store1

/-- Source `maybeSetSpecialValue`: the set-side special-property dispatch, in
source order — user HAL first, then the HVAC power gate, then the
property-id switch.  `none` means not special.  (The
`ENABLE_VENDOR_CLUSTER_PROPERTY_FOR_TESTING` cases are compiled out in
the default build and are not modelled.) -/
def maybeSetSpecialValue (env : Env) (store : PropStore) (now : Int)
    (value : VehiclePropValue) : Option (Except StatusCode PropStore) :=
  if env.userHalSupported value.prop then some (setUserHalProp env store value)
  else if isHvacPropAndHvacNotAvailable env store value.prop then
    some (.error .NOT_AVAILABLE)
  else if value.prop = env.AP_POWER_STATE_REPORT then
    some (setApPowerStateReport env store now value)
  else if value.prop = env.VEHICLE_MAP_SERVICE then some (.ok store)
  else if value.prop = env.OBD2_FREEZE_FRAME_CLEAR then
    some (env.clearObd2FreezeFrames store value)
  else none

/-- Source `FakeVehicleHardware::setValue` (single request): dispatch to the
special-value handler if the property is special; otherwise restamp the
value with the current time and write it into the store. -/
def setValue (env : Env) (store : PropStore) (now : Int) (value : VehiclePropValue) :
    Except StatusCode PropStore :=
  match maybeSetSpecialValue env store now value with
  | some r => r
  | none =>
      match writeValue store { value with timestamp := now } false with
      | .error e => .error e
      | .ok (store', _) => .ok store'

/-- Source `FakeVehicleHardware::getValue` (single request): dispatch to the
special-value handler if the property is special; otherwise read from the
store (a `NOT_AVAILABLE` read error means the value was never set). -/
def getValue (env : Env) (store : PropStore) (now : Int) (value : VehiclePropValue) :
    Except StatusCode VehiclePropValue :=
  match maybeGetSpecialValue env store now value with
  | some r => r
  | none => readValue store value.prop value.areaId

/-- AIDL `GetValueRequest`: a caller-assigned request id plus the
key-bearing value to read. -/
structure GetValueRequest where
  requestId : Int
  prop : VehiclePropValue
deriving DecidableEq, Repr

/-- AIDL `GetValueResult`: the original request id, a status, and (on
success) the read value. -/
structure GetValueResult where
  requestId : Int
  status : StatusCode
  prop : Option VehiclePropValue
deriving DecidableEq, Repr

/-- AIDL `SetValueRequest`. -/
structure SetValueRequest where
  requestId : Int
  value : VehiclePropValue
deriving DecidableEq, Repr

/-- Source `handleGetValueRequest`: run the single-request `getValue` and wrap
the outcome in a `GetValueResult` carrying the request's id — status `OK`
and the value on success, the error status (and no value) on failure. -/
def handleGetValueRequest (env : Env) (store : PropStore) (now : Int)
    (request : GetValueRequest) : GetValueResult :=
  match getValue env store now request.prop with
  | .error e => { requestId := request.requestId, status := e, prop := none }
  | .ok v => { requestId := request.requestId, status := .OK, prop := some v }

/-- Source `PendingRequestHandler<GetValuesCallback, GetValueRequest>::
handleRequestsOnce`: drain one batch of (request, callback-handle) pairs,
produce one result per request via `handleGetValueRequest`, group the
results by callback handle (callback handles are modelled by numeric
identity, standing for the C++ `shared_ptr` identity used as the
`unordered_map` key), and deliver each distinct callback its result list.
The C++ `unordered_map` iterates the callbacks in an unspecified order;
the model fixes one order (`dedup` of the handles), which the delivered
per-callback lists do not depend on.  `getValue` is const, so every
request in the batch reads the same store. -/
def handleGetRequestsOnce (env : Env) (store : PropStore) (now : Int)
    (batch : List (GetValueRequest × Nat)) : List (Nat × List GetValueResult) :=
  ((batch.map Prod.snd).dedup).map fun cb =>
    (cb, (batch.filter fun rc => rc.2 == cb).map fun rc =>
           handleGetValueRequest env store now rc.1)

/-- Source `FakeVehicleHardware::getValues`: enqueue one pending (request,
callback) pair per list element into the get queue and immediately return
`OK`, with no per-request validation. -/
def getValues (pending : List (GetValueRequest × Nat)) (callback : Nat)
    (requests : List GetValueRequest) : List (GetValueRequest × Nat) × StatusCode :=
  (pending ++ requests.map fun r => (r, callback), .OK)

/-- Source `FakeVehicleHardware::setValues`: enqueue one pending (request,
callback) pair per list element into the set queue and immediately return
`OK`, with no per-request validation. -/
def setValues (pending : List (SetValueRequest × Nat)) (callback : Nat)
    (requests : List SetValueRequest) : List (SetValueRequest × Nat) × StatusCode :=
  (pending ++ requests.map fun r => (r, callback), .OK)

/-- Source `FakeVehicleHardware::registerOnPropertyChangeEvent`: install the
property-change listener, replacing any prior one (listeners are modelled
by numeric identity). -/
def registerOnPropertyChangeEvent (st : FakeState) (callback : Nat) : FakeState :=
  { st with propertyChangeCallback := some callback }

/-- Source `FakeVehicleHardware::onValueChangeCallback`: the store's
change-notification hook.  With no listener registered it is a silent
no-op (the event is dropped, not queued); with a listener it forwards one
single-element batch.  The second component lists the (listener, batch)
deliveries this invocation makes. -/
def onValueChangeCallback (st : FakeState) (value : VehiclePropValue) :
    FakeState × List (Nat × List VehiclePropValue) :=
  match st.propertyChangeCallback with
  | none => (st, [])
  | some cb => (st, [(cb, [value])])

/-- Fire the change-notification hook once per value of a list,
accumulating all deliveries made. -/
def fireValueChanges (st : FakeState) (values : List VehiclePropValue) :
    FakeState × List (Nat × List VehiclePropValue) :=
  values.foldl
    (fun acc v =>
      ((onValueChangeCallback acc.1 v).1, acc.2 ++ (onValueChangeCallback acc.1 v).2))
    (st, [])

/-- Modelled from the spec: `RecurrentTimer::unregisterTimerCallback`
removes all future firings of the given callback handle. -/
def unregisterTimerCallback (regs : List TimerReg) (aid : Nat) : List TimerReg :=
  regs.filter fun r => r.actionId != aid

/-- Truncation toward zero, the behavior of C++
`static_cast<int64_t>` on a floating-point value.  The C++ `double`
division `1e9 / sampleRate` is modelled as exact rational division. -/
def ratTruncToInt (q : Rat) : Int :=
  if 0 ≤ q then q.floor else q.ceil

/-- Source `FakeVehicleHardware::updateSampleRate`: if `mRecurrentActions` holds
an action for the key, unregister it from the timer.  A zero rate then
just returns `OK` (the map entry is not erased).  A nonzero rate computes
`interval = 1e9 / sampleRate` nanoseconds, registers a fresh refresh
action (whose firing behavior is `fireRecurrentAction` for this key) at
that interval, and records it in `mRecurrentActions`. -/
def updateSampleRate (st : FakeState) (propId areaId : Int) (sampleRate : Rat) :
    FakeState × StatusCode :=
  let key : PropIdAreaId := { propId := propId, areaId := areaId }
  let regs :=
    match alookup st.recurrentActions key with
    | some aid => unregisterTimerCallback st.timerRegs aid
    | none => st.timerRegs
  if sampleRate = 0 then ({ st with timerRegs := regs }, .OK)
  else
    let interval := ratTruncToInt (1000000000 / sampleRate)
    let aid := st.nextActionId
    ({ st with
        timerRegs := regs ++ [{ actionId := aid, key := key, intervalNanos := interval }],
        recurrentActions := aset st.recurrentActions key aid,
        nextActionId := aid + 1 },
     .OK)

/-- The body of the refresh closure registered by `updateSampleRate`:
re-read the key's current value (skipping the cycle on failure), stamp it
with a fresh timestamp, remove the stored value for the key, and rewrite
it into the store.  The second component is the change notification the
rewrite fires, if any (the closure discards the write's result). -/
def fireRecurrentAction (env : Env) (store : PropStore) (now : Int)
    (propId areaId : Int) : PropStore × Option VehiclePropValue :=
  match getValue env store now (probeValue propId areaId) with
  | .error _ => (store, none)
  | .ok result =>
      let result := { result with timestamp := now }
      let store1 := removeValue store result
      match writeValue store1 result false with
      | .error _ => (store1, none)
      | .ok (store2, event) => (store2, event)

/-- The bookkeeping invariant tying `mRecurrentActions` to the timer
registrations: every registered timer action is the one currently
recorded for its key, recorded action ids are below the fresh-id counter,
and no two keys share an action. -/
def actionsWF (st : FakeState) : Prop :=
  (∀ r ∈ st.timerRegs, alookup st.recurrentActions r.key = some r.actionId) ∧
  (∀ k aid, alookup st.recurrentActions k = some aid → aid < st.nextActionId) ∧
  (∀ k1 k2 aid, alookup st.recurrentActions k1 = some aid →
    alookup st.recurrentActions k2 = some aid → k1 = k2)

/-- Source `dumpSaveProperty` (after option parsing): snapshot the current store
value for the key into `mSavedProps`, or fail if the key has no stored
value. -/
def saveProperty (st : FakeState) (propId areaId : Int) : Except StatusCode FakeState :=
  match readValue st.store propId areaId with
  | .error e => .error e
  | .ok v =>
      .ok { st with
              savedProps := aset st.savedProps { propId := propId, areaId := areaId } v }

/-- Outcome of `dumpRestoreProperty`. -/
inductive RestoreOutcome where
  | noSavedProperty
  | writeFailed (e : StatusCode)
  | restored
deriving DecidableEq, Repr

/-- Source `dumpRestoreProperty` (after option parsing): pop the snapshot for the
key (reporting `noSavedProperty` and leaving everything unchanged if
there is none), restamp its timestamp, and write it back into the store. -/
def restoreProperty (st : FakeState) (now : Int) (propId areaId : Int) :
    FakeState × RestoreOutcome :=
  let key : PropIdAreaId := { propId := propId, areaId := areaId }
  match alookup st.savedProps key with
  | none => (st, .noSavedProperty)
  | some savedValue =>
      let st1 := { st with savedProps := aremove st.savedProps key }
      match writeValue st1.store { savedValue with timestamp := now } false with
      | .error e => (st1, .writeFailed e)
      | .ok (store', _) => ({ st1 with store := store' }, .restored)

instance {ε α : Type} [DecidableEq ε] [DecidableEq α] : DecidableEq (Except ε α)
  | .error a, .error b =>
      if h : a = b then .isTrue (by rw [h])
      else .isFalse (by intro hh; cases hh; exact h rfl)
  | .error _, .ok _ => .isFalse (by intro hh; cases hh)
  | .ok _, .error _ => .isFalse (by intro hh; cases hh)
  | .ok a, .ok b =>
      if h : a = b then .isTrue (by rw [h])
      else .isFalse (by intro hh; cases hh; exact h rfl)

/-- An int32-payload value. -/
def mkInt32Val (p a ts : Int) (xs : List Int) : VehiclePropValue :=
  { prop := p, areaId := a, timestamp := ts, status := .AVAILABLE,
    value := { emptyRaw with int32Values := xs } }

/-- A concrete test environment: no user-HAL property, black-box OBD2
handlers, and the header constants instantiated with the real AIDL ids
(two fan properties in `HVAC_POWER_PROPERTIES`). -/
def envT : Env :=
  { userHalSupported := fun _ => false,
    onGetPropertyUserHal := fun _ => .error .INVALID_ARG,
    onSetPropertyUserHal := fun _ => .error .INVALID_ARG,
    getObd2FreezeFrame := fun _ _ => .error .INVALID_ARG,
    getObd2DtcInfo := fun _ => .error .INVALID_ARG,
    clearObd2FreezeFrames := fun s _ => .ok s,
    OBD2_FREEZE_FRAME := 299896065,
    OBD2_FREEZE_FRAME_INFO := 299896066,
    OBD2_FREEZE_FRAME_CLEAR := 299896067,
    ECHO_REVERSE_BYTES := 299896070,
    AP_POWER_STATE_REPORT := 289475073,
    AP_POWER_STATE_REQ := 289475072,
    VEHICLE_MAP_SERVICE := 299895808,
    HVAC_POWER_ON := 354419984,
    HVAC_ALL := 117,
    hvacPowerProperties := [356517120, 356517121] }

/-- A concrete store: property 1 registered globally, nothing written. -/
def storeT : PropStore :=
  { configs := [{ prop := 1, areaIds := [] }], values := [] }

/-- A concrete facade state with empty store and side maps and no
registered property-change listener. -/
def stEmpty : FakeState :=
  { store := storeT, savedProps := [], recurrentActions := [], timerRegs := [],
    nextActionId := 0, propertyChangeCallback := none }

/-- C9: the batched entry points `getValues` and `setValues` enqueue one
pending request per list element and always return `StatusCode::OK`
immediately, with no per-request validation whatsoever. -/
theorem getValues_setValues_always_ok (pendingG : List (GetValueRequest × Nat))
    (pendingS : List (SetValueRequest × Nat)) (cb : Nat)
    (greqs : List GetValueRequest) (sreqs : List SetValueRequest) :
    (getValues pendingG cb greqs).2 = .OK ∧
    (getValues pendingG cb greqs).1 = pendingG ++ greqs.map (fun r => (r, cb)) ∧
    (getValues pendingG cb greqs).1.length = pendingG.length + greqs.length ∧
    (setValues pendingS cb sreqs).2 = .OK ∧
    (setValues pendingS cb sreqs).1 = pendingS ++ sreqs.map (fun r => (r, cb)) ∧
    (setValues pendingS cb sreqs).1.length = pendingS.length + sreqs.length := by
  simp [getValues, setValues]

/-- The callback keys of a drained batch's delivery are the distinct
callback handles of the batch. -/
theorem handleGetRequestsOnce_keys (env : Env) (store : PropStore) (now : Int)
    (batch : List (GetValueRequest × Nat)) :
    (handleGetRequestsOnce env store now batch).map Prod.fst =
      (batch.map Prod.snd).dedup := by
  unfold handleGetRequestsOnce
  rw [List.map_map]
  exact List.map_id _

/-- C1: for a drained batch of get requests, each distinct callback handle
is delivered exactly one result list; the list of a callback consists of
exactly its own requests' results, in intra-batch order; each result
carries its request's original id, with status `OK` and the value when
`getValue` succeeded, and with the error status (and no value) when it
failed — regardless of per-request success or failure. -/
theorem handleGetRequestsOnce_batch_delivery (env : Env) (store : PropStore) (now : Int)
    (batch : List (GetValueRequest × Nat)) :
    ((handleGetRequestsOnce env store now batch).map Prod.fst =
        (batch.map Prod.snd).dedup) ∧
    ((handleGetRequestsOnce env store now batch).map Prod.fst).Nodup ∧
    (∀ rc ∈ batch, rc.2 ∈ (handleGetRequestsOnce env store now batch).map Prod.fst) ∧
    (∀ cb rs, (cb, rs) ∈ handleGetRequestsOnce env store now batch →
        rs = (batch.filter fun rc => rc.2 == cb).map fun rc =>
               handleGetValueRequest env store now rc.1) ∧
    (∀ req, (handleGetValueRequest env store now req).requestId = req.requestId) ∧
    (∀ req v, getValue env store now req.prop = .ok v →
        handleGetValueRequest env store now req =
          { requestId := req.requestId, status := .OK, prop := some v }) ∧
    (∀ req e, getValue env store now req.prop = .error e →
        handleGetValueRequest env store now req =
          { requestId := req.requestId, status := e, prop := none }) := by
  refine ⟨?_, ?_, ?_, ?_, ?_, ?_, ?_⟩
  · exact handleGetRequestsOnce_keys env store now batch
  · have h : (handleGetRequestsOnce env store now batch).map Prod.fst =
        (batch.map Prod.snd).dedup := handleGetRequestsOnce_keys env store now batch
    rw [h]
    exact List.nodup_dedup _
  · intro rc hrc
    have h : (handleGetRequestsOnce env store now batch).map Prod.fst =
        (batch.map Prod.snd).dedup := handleGetRequestsOnce_keys env store now batch
    rw [h]
    exact List.mem_dedup.mpr (List.mem_map_of_mem Prod.snd hrc)
  · intro cb rs hmem
    simp only [handleGetRequestsOnce, List.mem_map] at hmem
    obtain ⟨c, _, hc⟩ := hmem
    obtain ⟨h1, h2⟩ := Prod.mk.injEq .. ▸ hc
    subst h1
    exact h2.symm
  · intro req
    cases h : getValue env store now req.prop <;> simp [handleGetValueRequest, h]
  · intro req v h
    simp [handleGetValueRequest, h]
  · intro req e h
    simp [handleGetValueRequest, h]

/-- A concrete batch: three get requests sharing callback handle 7,
probing a registered but never-written property. -/
def batchT : List (GetValueRequest × Nat) :=
  [({ requestId := 11, prop := probeValue 1 0 }, 7),
   ({ requestId := 12, prop := probeValue 1 0 }, 7),
   ({ requestId := 13, prop := probeValue 1 0 }, 7)]

theorem handleGetRequestsOnce_batch_delivery_witness :
    ((7, [({ requestId := 11, status := .NOT_AVAILABLE, prop := none } : GetValueResult),
          { requestId := 12, status := .NOT_AVAILABLE, prop := none },
          { requestId := 13, status := .NOT_AVAILABLE, prop := none }]) ∈
        handleGetRequestsOnce envT storeT 0 batchT) ∧
    ([({ requestId := 11, status := .NOT_AVAILABLE, prop := none } : GetValueResult),
      { requestId := 12, status := .NOT_AVAILABLE, prop := none },
      { requestId := 13, status := .NOT_AVAILABLE, prop := none }] =
        (batchT.filter fun rc => rc.2 == 7).map fun rc =>
          handleGetValueRequest envT storeT 0 rc.1) ∧
    handleGetValueRequest envT storeT 0 { requestId := 11, prop := probeValue 1 0 } =
      { requestId := 11, status := .NOT_AVAILABLE, prop := none } := by
  refine ⟨by decide, ?_, ?_⟩
  · exact (handleGetRequestsOnce_batch_delivery envT storeT 0 batchT).2.2.2.1 7 _
      (by decide)
  · exact (handleGetRequestsOnce_batch_delivery envT storeT 0 batchT).2.2.2.2.2.2
      { requestId := 11, prop := probeValue 1 0 } .NOT_AVAILABLE (by decide)

/-- Firing the change hook repeatedly with no registered listener loops
through no-ops: the state is unchanged and nothing is delivered or
queued. -/
theorem fireValueChanges_no_listener (st : FakeState)
    (h : st.propertyChangeCallback = none) (vs : List VehiclePropValue) :
    fireValueChanges st vs = (st, []) := by
  have aux : ∀ (vs : List VehiclePropValue) (ds : List (Nat × List VehiclePropValue)),
      vs.foldl
        (fun acc v =>
          ((onValueChangeCallback acc.1 v).1, acc.2 ++ (onValueChangeCallback acc.1 v).2))
        (st, ds) = (st, ds) := by
    intro vs
    induction vs with
    | nil => intro ds; rfl
    | cons v tl ih =>
        intro ds
        simp only [List.foldl_cons, onValueChangeCallback, h]
        simpa using ih ds
  exact aux vs []

/-- C10: the store's change hook `onValueChangeCallback` never mutates
state; with no property-change listener registered it drops the event
silently (nothing delivered, nothing queued — so no sequence of events
fired before `registerOnPropertyChangeEvent` is ever delivered), and with
a listener registered each invocation forwards exactly one batch holding
exactly the single changed value; registration fills the single listener
slot. -/
theorem onValueChangeCallback_dispatch (st : FakeState) (v : VehiclePropValue)
    (vs : List VehiclePropValue) (cb : Nat) :
    ((onValueChangeCallback st v).1 = st) ∧
    (st.propertyChangeCallback = none → (onValueChangeCallback st v).2 = []) ∧
    (st.propertyChangeCallback = some cb →
        (onValueChangeCallback st v).2 = [(cb, [v])]) ∧
    (st.propertyChangeCallback = none → fireValueChanges st vs = (st, [])) ∧
    ((registerOnPropertyChangeEvent st cb).propertyChangeCallback = some cb) := by
  refine ⟨?_, ?_, ?_, ?_, ?_⟩
  · cases h : st.propertyChangeCallback <;> simp [onValueChangeCallback, h]
  · intro h; simp [onValueChangeCallback, h]
  · intro h; simp [onValueChangeCallback, h]
  · intro h; exact fireValueChanges_no_listener st h vs
  · rfl

theorem onValueChangeCallback_dispatch_witness :
    ((onValueChangeCallback stEmpty (probeValue 1 0)).2 = []) ∧
    (fireValueChanges stEmpty [probeValue 1 0, probeValue 2 0] = (stEmpty, [])) ∧
    ((onValueChangeCallback (registerOnPropertyChangeEvent stEmpty 5)
        (probeValue 1 0)).2 = [(5, [probeValue 1 0])]) := by
  refine ⟨?_, ?_, ?_⟩
  · exact (onValueChangeCallback_dispatch stEmpty (probeValue 1 0) [] 5).2.1 rfl
  · exact (onValueChangeCallback_dispatch stEmpty (probeValue 1 0)
      [probeValue 1 0, probeValue 2 0] 5).2.2.2.1 rfl
  · exact (onValueChangeCallback_dispatch (registerOnPropertyChangeEvent stEmpty 5)
      (probeValue 1 0) [] 5).2.2.1 rfl

/-- C7: getting a registered, non-special property whose key holds no
stored value fails with `NOT_AVAILABLE`. -/
theorem getValue_never_written (env : Env) (store : PropStore) (now : Int)
    (v : VehiclePropValue)
    (hhal : env.userHalSupported v.prop = false)
    (h1 : v.prop ≠ env.OBD2_FREEZE_FRAME)
    (h2 : v.prop ≠ env.OBD2_FREEZE_FRAME_INFO)
    (h3 : v.prop ≠ env.ECHO_REVERSE_BYTES)
    (_hreg : configFor store.configs v.prop ≠ none)
    (hnone : alookup store.values (keyOf v) = none) :
    getValue env store now v = .error .NOT_AVAILABLE := by
  unfold getValue maybeGetSpecialValue readValue
  simp only [hhal, h1, h2, h3, Bool.false_eq_true, if_false]
  have : alookup store.values { propId := v.prop, areaId := v.areaId } = none := hnone
  rw [this]

theorem getValue_never_written_witness :
    (envT.userHalSupported 1 = false) ∧
    (configFor storeT.configs 1 ≠ none) ∧
    (alookup storeT.values (keyOf (probeValue 1 0)) = none) ∧
    getValue envT storeT 3 (probeValue 1 0) = .error .NOT_AVAILABLE := by
  refine ⟨rfl, by decide, rfl, ?_⟩
  exact getValue_never_written envT storeT 3 (probeValue 1 0) rfl (by decide) (by decide)
    (by decide) (by decide) rfl

theorem keyOf_set_timestamp (v : VehiclePropValue) (t : Int) :
    keyOf { v with timestamp := t } = keyOf v := rfl

theorem clearTimestamp_set_timestamp (v : VehiclePropValue) (t : Int) :
    clearTimestamp { v with timestamp := t } = clearTimestamp v := rfl

/-- A write into a key with no stored value always overwrites (and fires
the notification). -/
theorem writeValue_ok_of_none (store : PropStore) (v : VehiclePropValue)
    (us : Bool) (hcfg : configAllows store.configs v.prop v.areaId = true)
    (hnone : alookup store.values (keyOf v) = none) :
    writeValue store v us =
      .ok ({ store with values := aset store.values (keyOf v) v }, some v) := by
  simp [writeValue, hcfg, hnone]

/-- A write with `updateStatus = true` always overwrites (and fires the
notification). -/
theorem writeValue_ok_of_updateStatus (store : PropStore) (v : VehiclePropValue)
    (hcfg : configAllows store.configs v.prop v.areaId = true) :
    writeValue store v true =
      .ok ({ store with values := aset store.values (keyOf v) v }, some v) := by
  cases h : alookup store.values (keyOf v) <;> simp [writeValue, hcfg, h]

/-- A write whose value differs (ignoring timestamp) from the stored one
overwrites (and fires the notification). -/
theorem writeValue_ok_of_changed (store : PropStore) (v old : VehiclePropValue)
    (us : Bool) (hcfg : configAllows store.configs v.prop v.areaId = true)
    (hsome : alookup store.values (keyOf v) = some old)
    (hne : ¬ eqIgnoreTimestamp old v) :
    writeValue store v us =
      .ok ({ store with values := aset store.values (keyOf v) v }, some v) := by
  simp [writeValue, hcfg, hsome, hne]

/-- A write of an unchanged value (ignoring timestamp) with
`updateStatus = false` is the idempotent fast path: success, no
overwrite, no notification. -/
theorem writeValue_fastpath (store : PropStore) (v old : VehiclePropValue)
    (hcfg : configAllows store.configs v.prop v.areaId = true)
    (hsome : alookup store.values (keyOf v) = some old)
    (heq : eqIgnoreTimestamp old v) :
    writeValue store v false = .ok (store, none) := by
  simp [writeValue, hcfg, hsome, heq]

/-- A permitted write always succeeds, preserves the configuration, and
leaves every key other than the written one untouched. -/
theorem writeValue_ok_of_allows (store : PropStore) (v : VehiclePropValue)
    (us : Bool) (hcfg : configAllows store.configs v.prop v.areaId = true) :
    ∃ store' evt, writeValue store v us = .ok (store', evt) ∧
      store'.configs = store.configs ∧
      ∀ key, key ≠ keyOf v → alookup store'.values key = alookup store.values key := by
  cases hl : alookup store.values (keyOf v) with
  | none =>
      refine ⟨_, _, writeValue_ok_of_none store v us hcfg hl, rfl, ?_⟩
      intro key hk
      exact alookup_aset_ne store.values (keyOf v) key v hk
  | some old =>
      by_cases heq : eqIgnoreTimestamp old v ∧ us = false
      · refine ⟨store, none, ?_, rfl, fun _ _ => rfl⟩
        rcases heq with ⟨heq1, heq2⟩
        subst heq2
        exact writeValue_fastpath store v old hcfg hl heq1
      · refine ⟨{ store with values := aset store.values (keyOf v) v }, some v,
          ?_, rfl, ?_⟩
        · simp [writeValue, hcfg, hl, heq]
        · intro key hk
          exact alookup_aset_ne store.values (keyOf v) key v hk

/-- A concrete store for the write-then-read scenario: property 1 global,
key (1, 0) holding `[42]` written at time 5. -/
def v5C6 : VehiclePropValue := mkInt32Val 1 0 5 [42]

/-- The same payload as `v5C6` about to be re-written (timestamp field
irrelevant: `setValue` restamps before writing). -/
def vSetC6 : VehiclePropValue := mkInt32Val 1 0 0 [42]

/-- Store holding `v5C6` at key (1, 0). -/
def storeC6 : PropStore :=
  { configs := [{ prop := 1, areaIds := [] }],
    values := [({ propId := 1, areaId := 0 }, v5C6)] }

/-- C6 counterexample: re-writing at time 9 the identical payload stored
at time 5 takes the store's idempotent fast path — `setValue` succeeds
but the store is unchanged, so the following `getValue` returns the old
timestamp 5, which is not ≥ the set-call time 9. -/
theorem setValue_timestamp_counterexample :
    setValue envT storeC6 9 vSetC6 = .ok storeC6 ∧
    getValue envT storeC6 10 (probeValue 1 0) = .ok v5C6 ∧
    v5C6.timestamp = 5 ∧ ¬((5 : Int) ≥ 9) := by
  refine ⟨by decide, by decide, rfl, by decide⟩

/-- C6 (amended): for a registered, non-special property, a `setValue`
that is not the idempotent fast path (no stored value for the key, or a
stored value differing from the written one ignoring timestamp) succeeds,
and a subsequent `getValue` on the key returns a value equal to the
written one in all fields except timestamp, the timestamp being the
`setValue` call time (hence ≥ it). -/
theorem setValue_then_getValue_fresh (env : Env) (store : PropStore) (now now2 : Int)
    (v : VehiclePropValue)
    (hhal : env.userHalSupported v.prop = false)
    (hg1 : v.prop ≠ env.OBD2_FREEZE_FRAME)
    (hg2 : v.prop ≠ env.OBD2_FREEZE_FRAME_INFO)
    (hg3 : v.prop ≠ env.ECHO_REVERSE_BYTES)
    (hs1 : isHvacPropAndHvacNotAvailable env store v.prop = false)
    (hs2 : v.prop ≠ env.AP_POWER_STATE_REPORT)
    (hs3 : v.prop ≠ env.VEHICLE_MAP_SERVICE)
    (hs4 : v.prop ≠ env.OBD2_FREEZE_FRAME_CLEAR)
    (hcfg : configAllows store.configs v.prop v.areaId = true)
    (hfresh : ∀ old, alookup store.values (keyOf v) = some old →
        ¬ eqIgnoreTimestamp old v) :
    ∃ store', setValue env store now v = .ok store' ∧
      getValue env store' now2 (probeValue v.prop v.areaId) =
        .ok { v with timestamp := now } ∧
      ({ v with timestamp := now }).timestamp ≥ now := by
  have hcfg' : configAllows store.configs ({ v with timestamp := now }).prop
      ({ v with timestamp := now }).areaId = true := hcfg
  have hw : writeValue store { v with timestamp := now } false =
      .ok ({ store with
              values := aset store.values (keyOf v) { v with timestamp := now } },
           some { v with timestamp := now }) := by
    cases hl : alookup store.values (keyOf v) with
    | none =>
        have := writeValue_ok_of_none store { v with timestamp := now } false hcfg'
          (by rw [keyOf_set_timestamp]; exact hl)
        rw [keyOf_set_timestamp] at this
        exact this
    | some old =>
        have hne : ¬ eqIgnoreTimestamp old { v with timestamp := now } := by
          intro hc
          exact hfresh old hl (by
            unfold eqIgnoreTimestamp at hc ⊢
            rw [clearTimestamp_set_timestamp] at hc
            exact hc)
        have := writeValue_ok_of_changed store { v with timestamp := now } old false
          hcfg' (by rw [keyOf_set_timestamp]; exact hl) hne
        rw [keyOf_set_timestamp] at this
        exact this
  refine ⟨{ store with
      values := aset store.values (keyOf v) { v with timestamp := now } },
    ?_, ?_, le_refl now⟩
  · unfold setValue maybeSetSpecialValue
    simp only [hhal, hs1, hs2, hs3, hs4, Bool.false_eq_true, if_false, if_neg]
    rw [hw]
  · unfold getValue maybeGetSpecialValue readValue probeValue
    simp only [hhal, hg1, hg2, hg3, Bool.false_eq_true, if_false, if_neg]
    have : ({ propId := v.prop, areaId := v.areaId } : PropIdAreaId) = keyOf v := rfl
    rw [this, alookup_aset_self]

theorem setValue_then_getValue_fresh_witness :
    ∃ store', setValue envT storeT 4 (mkInt32Val 1 0 0 [8]) = .ok store' ∧
      getValue envT store' 6 (probeValue 1 0) =
        .ok { mkInt32Val 1 0 0 [8] with timestamp := 4 } ∧
      ({ mkInt32Val 1 0 0 [8] with timestamp := 4 }).timestamp ≥ 4 := by
  exact setValue_then_getValue_fresh envT storeT 4 6 (mkInt32Val 1 0 0 [8]) rfl
    (by decide) (by decide) (by decide) (by decide) (by decide) (by decide) (by decide)
    (by decide) (by intro old h; cases h)

/-- The HVAC master switch stored as off (single int32 0) for `HVAC_ALL`. -/
def hvacOffVal : VehiclePropValue := mkInt32Val 354419984 117 1 [0]

/-- A stored value for the HVAC-power-dependent fan-speed property. -/
def fanVal : VehiclePropValue := mkInt32Val 356517120 49 2 [3]

/-- A store with HVAC power off and a stored fan-speed value. -/
def storeHvac : PropStore :=
  { configs := [{ prop := 354419984, areaIds := [117] },
                { prop := 356517120, areaIds := [49] }],
    values := [({ propId := 354419984, areaId := 117 }, hvacOffVal),
               ({ propId := 356517120, areaId := 49 }, fanVal)] }

/-- C2 counterexample: with HVAC power off, `getValue` on an
HVAC-power-dependent property does not fail with `NOT_AVAILABLE` — the
HVAC gate is checked only on the set path, so the get returns the stored
value. -/
theorem hvac_get_not_gated_counterexample :
    isHvacPropAndHvacNotAvailable envT storeHvac 356517120 = true ∧
    (356517120 : Int) ∈ envT.hvacPowerProperties ∧
    getValue envT storeHvac 5 (probeValue 356517120 49) = .ok fanVal ∧
    getValue envT storeHvac 5 (probeValue 356517120 49) ≠ .error .NOT_AVAILABLE := by
  refine ⟨by decide, by decide, by decide, by decide⟩

/-- C2 (amended): with the stored `HVAC_POWER_ON` value for `HVAC_ALL`
reading as a single int32 equal to 0, `setValue` on every
HVAC-power-dependent (non-user-HAL) property fails with `NOT_AVAILABLE`;
`getValue` is not HVAC-gated — for a property that is not get-special it
is the plain store read. -/
theorem hvac_power_gate (env : Env) (store : PropStore) (now : Int)
    (v : VehiclePropValue)
    (hhal : env.userHalSupported v.prop = false)
    (hoff : isHvacPropAndHvacNotAvailable env store v.prop = true) :
    setValue env store now v = .error .NOT_AVAILABLE ∧
    (v.prop ≠ env.OBD2_FREEZE_FRAME → v.prop ≠ env.OBD2_FREEZE_FRAME_INFO →
      v.prop ≠ env.ECHO_REVERSE_BYTES →
      getValue env store now v = readValue store v.prop v.areaId) := by
  constructor
  · unfold setValue maybeSetSpecialValue
    simp [hhal, hoff]
  · intro h1 h2 h3
    unfold getValue maybeGetSpecialValue
    simp [hhal, h1, h2, h3]

theorem hvac_power_gate_witness :
    setValue envT storeHvac 5 (mkInt32Val 356517120 49 0 [9]) =
      .error .NOT_AVAILABLE ∧
    getValue envT storeHvac 5 (mkInt32Val 356517120 49 0 [9]) =
      readValue storeHvac 356517120 49 := by
  have h := hvac_power_gate envT storeHvac 5 (mkInt32Val 356517120 49 0 [9]) rfl
    (by decide)
  exact ⟨h.1, h.2 (by decide) (by decide) (by decide)⟩

/-- C8: for a key with a stored value, saving the property, then writing
a different value for the key, then restoring, leaves the store's value
for the key equal to the originally saved payload in every field except
timestamp (freshly restamped at restore time), and consumes the snapshot:
a second restore without an intervening save reports that there is no
saved property and leaves the whole state unchanged. -/
theorem save_modify_restore_roundtrip (st : FakeState) (p a : Int)
    (v0 v1 : VehiclePropValue) (now1 now2 now3 : Int)
    (h0 : alookup st.store.values { propId := p, areaId := a } = some v0)
    (hv0p : v0.prop = p) (hv0a : v0.areaId = a)
    (hcfg : configAllows st.store.configs p a = true)
    (hv1p : v1.prop = p) (hv1a : v1.areaId = a)
    (hdiff : ¬ eqIgnoreTimestamp v1 v0) :
    ∃ st1, saveProperty st p a = .ok st1 ∧ st1.store = st.store ∧
    ∃ store2 evt, writeValue st1.store { v1 with timestamp := now1 } false =
        .ok (store2, evt) ∧
    ∃ st3, restoreProperty { st1 with store := store2 } now2 p a =
        (st3, .restored) ∧
      readValue st3.store p a = .ok { v0 with timestamp := now2 } ∧
      alookup st3.savedProps { propId := p, areaId := a } = none ∧
      restoreProperty st3 now3 p a = (st3, .noSavedProperty) := by
  have hkey1 : keyOf { v1 with timestamp := now1 } =
      ({ propId := p, areaId := a } : PropIdAreaId) := by
    simp [keyOf, hv1p, hv1a]
  have hkey0 : keyOf { v0 with timestamp := now2 } =
      ({ propId := p, areaId := a } : PropIdAreaId) := by
    simp [keyOf, hv0p, hv0a]
  have hread : readValue st.store p a = .ok v0 := by
    unfold readValue
    rw [h0]
  have hsave : saveProperty st p a =
      .ok { st with savedProps := aset st.savedProps { propId := p, areaId := a } v0 } := by
    unfold saveProperty
    rw [hread]
  refine ⟨_, hsave, rfl, ?_⟩
  have hcfg1 : configAllows st.store.configs ({ v1 with timestamp := now1 }).prop
      ({ v1 with timestamp := now1 }).areaId = true := by
    show configAllows st.store.configs v1.prop v1.areaId = true
    rw [hv1p, hv1a]; exact hcfg
  have hne1 : ¬ eqIgnoreTimestamp v0 { v1 with timestamp := now1 } := by
    intro hc
    apply hdiff
    unfold eqIgnoreTimestamp at hc ⊢
    rw [clearTimestamp_set_timestamp] at hc
    exact hc.symm
  have hw1 : writeValue st.store { v1 with timestamp := now1 } false =
      .ok ({ st.store with
              values := aset st.store.values { propId := p, areaId := a }
                          { v1 with timestamp := now1 } },
           some { v1 with timestamp := now1 }) := by
    have := writeValue_ok_of_changed st.store { v1 with timestamp := now1 } v0 false
      hcfg1 (by rw [hkey1]; exact h0) hne1
    rw [hkey1] at this
    exact this
  refine ⟨_, _, hw1, ?_⟩
  set key : PropIdAreaId := { propId := p, areaId := a } with hkeydef
  set store2 : PropStore :=
    { st.store with
        values := aset st.store.values key { v1 with timestamp := now1 } } with hs2def
  have hsaved1 : alookup (aset st.savedProps key v0) key = some v0 :=
    alookup_aset_self st.savedProps key v0
  have hcfg2 : configAllows store2.configs ({ v0 with timestamp := now2 }).prop
      ({ v0 with timestamp := now2 }).areaId = true := by
    show configAllows st.store.configs v0.prop v0.areaId = true
    rw [hv0p, hv0a]; exact hcfg
  have hlook2 : alookup store2.values key = some { v1 with timestamp := now1 } :=
    alookup_aset_self st.store.values key { v1 with timestamp := now1 }
  have hne2 : ¬ eqIgnoreTimestamp { v1 with timestamp := now1 }
      { v0 with timestamp := now2 } := by
    intro hc
    apply hdiff
    unfold eqIgnoreTimestamp at hc ⊢
    rw [clearTimestamp_set_timestamp, clearTimestamp_set_timestamp] at hc
    exact hc
  have hw2 : writeValue store2 { v0 with timestamp := now2 } false =
      .ok ({ store2 with
              values := aset store2.values key { v0 with timestamp := now2 } },
           some { v0 with timestamp := now2 }) := by
    have := writeValue_ok_of_changed store2 { v0 with timestamp := now2 }
      { v1 with timestamp := now1 } false hcfg2 (by rw [hkey0]; exact hlook2) hne2
    rw [hkey0] at this
    exact this
  have hrest : restoreProperty
      { { st with savedProps := aset st.savedProps key v0 } with store := store2 }
      now2 p a =
      ({ st with
          savedProps := aremove (aset st.savedProps key v0) key,
          store := { store2 with
                      values := aset store2.values key { v0 with timestamp := now2 } } },
       .restored) := by
    unfold restoreProperty
    rw [show ({ propId := p, areaId := a } : PropIdAreaId) = key from rfl]
    simp only [hsaved1, hw2]
  refine ⟨_, hrest, ?_, ?_, ?_⟩
  · unfold readValue
    rw [show ({ propId := p, areaId := a } : PropIdAreaId) = key from rfl,
      alookup_aset_self]
  · rw [alookup_aremove]
    simp
  · have hnone : alookup (aremove (aset st.savedProps key v0) key)
        ({ propId := p, areaId := a } : PropIdAreaId) = none := by
      rw [show ({ propId := p, areaId := a } : PropIdAreaId) = key from rfl,
        alookup_aremove]
      simp
    unfold restoreProperty
    simp [hnone]

theorem save_modify_restore_roundtrip_witness :
    ∃ st1, saveProperty
        { stEmpty with store := storeC6 } 1 0 = .ok st1 ∧ st1.store = storeC6 ∧
    ∃ store2 evt, writeValue st1.store { mkInt32Val 1 0 0 [77] with timestamp := 11 }
        false = .ok (store2, evt) ∧
    ∃ st3, restoreProperty { st1 with store := store2 } 12 1 0 = (st3, .restored) ∧
      readValue st3.store 1 0 = .ok { v5C6 with timestamp := 12 } ∧
      alookup st3.savedProps { propId := 1, areaId := 0 } = none ∧
      restoreProperty st3 13 1 0 = (st3, .noSavedProperty) := by
  exact save_modify_restore_roundtrip { stEmpty with store := storeC6 } 1 0 v5C6
    (mkInt32Val 1 0 0 [77]) 11 12 13 rfl rfl rfl (by decide) rfl rfl (by decide)

/-- C4: setting `AP_POWER_STATE_REPORT` (for a report value whose state
int is `s`) behaves per state group: for DEEP_SLEEP_EXIT,
HIBERNATION_EXIT, SHUTDOWN_CANCELLED or WAIT_FOR_VHAL, all stored
`AP_POWER_STATE_REQ` values are erased first and a fresh request with
state ON is written (updateStatus true), so afterwards the only stored
request instance is the fresh ON one; for DEEP_SLEEP_ENTRY,
HIBERNATION_ENTRY or SHUTDOWN_START a fresh request with state FINISHED
is written; for any other state the stored `AP_POWER_STATE_REQ` values
are untouched and the operation still succeeds. -/
theorem setApPowerStateReport_spec (env : Env) (store : PropStore) (now : Int)
    (v : VehiclePropValue) (s : Int)
    (hstate : v.value.int32Values.headD 0 = s)
    (hcfgv : configAllows store.configs v.prop v.areaId = true)
    (hcfgreq : configAllows store.configs env.AP_POWER_STATE_REQ 0 = true)
    (hne : v.prop ≠ env.AP_POWER_STATE_REQ) :
    ((s = VehicleApPowerStateReport.DEEP_SLEEP_EXIT.toInt ∨
      s = VehicleApPowerStateReport.HIBERNATION_EXIT.toInt ∨
      s = VehicleApPowerStateReport.SHUTDOWN_CANCELLED.toInt ∨
      s = VehicleApPowerStateReport.WAIT_FOR_VHAL.toInt) →
      ∃ store', setApPowerStateReport env store now v = .ok store' ∧
        readValue store' env.AP_POWER_STATE_REQ 0 =
          .ok (createApPowerStateReq env now .ON) ∧
        ∀ a, a ≠ 0 →
          alookup store'.values { propId := env.AP_POWER_STATE_REQ, areaId := a } =
            none) ∧
    ((s = VehicleApPowerStateReport.DEEP_SLEEP_ENTRY.toInt ∨
      s = VehicleApPowerStateReport.HIBERNATION_ENTRY.toInt ∨
      s = VehicleApPowerStateReport.SHUTDOWN_START.toInt) →
      ∃ store', setApPowerStateReport env store now v = .ok store' ∧
        readValue store' env.AP_POWER_STATE_REQ 0 =
          .ok (createApPowerStateReq env now .FINISHED)) ∧
    ((s ≠ VehicleApPowerStateReport.DEEP_SLEEP_EXIT.toInt ∧
      s ≠ VehicleApPowerStateReport.HIBERNATION_EXIT.toInt ∧
      s ≠ VehicleApPowerStateReport.SHUTDOWN_CANCELLED.toInt ∧
      s ≠ VehicleApPowerStateReport.WAIT_FOR_VHAL.toInt ∧
      s ≠ VehicleApPowerStateReport.DEEP_SLEEP_ENTRY.toInt ∧
      s ≠ VehicleApPowerStateReport.HIBERNATION_ENTRY.toInt ∧
      s ≠ VehicleApPowerStateReport.SHUTDOWN_START.toInt) →
      ∃ store', setApPowerStateReport env store now v = .ok store' ∧
        ∀ a, alookup store'.values { propId := env.AP_POWER_STATE_REQ, areaId := a } =
              alookup store.values { propId := env.AP_POWER_STATE_REQ, areaId := a }) := by
  obtain ⟨store1, evt1, hw1, hcfgs1, hother1⟩ :=
    writeValue_ok_of_allows store { v with timestamp := now } false hcfgv
  have hreqcfg1 : configAllows store1.configs env.AP_POWER_STATE_REQ 0 = true := by
    rw [hcfgs1]; exact hcfgreq
  refine ⟨?_, ?_, ?_⟩
  · intro hA
    have hreqw := writeValue_ok_of_updateStatus
      (removeValuesForProperty store1 env.AP_POWER_STATE_REQ)
      (createApPowerStateReq env now .ON) hreqcfg1
    have hrun : setApPowerStateReport env store now v =
        .ok { removeValuesForProperty store1 env.AP_POWER_STATE_REQ with
                values := aset (removeValuesForProperty store1
                                  env.AP_POWER_STATE_REQ).values
                            (keyOf (createApPowerStateReq env now .ON))
                            (createApPowerStateReq env now .ON) } := by
      unfold setApPowerStateReport
      simp only [hw1, hstate]
      rw [if_pos hA, hreqw]
    refine ⟨_, hrun, ?_, ?_⟩
    · unfold readValue
      rw [show ({ propId := env.AP_POWER_STATE_REQ, areaId := 0 } : PropIdAreaId) =
            keyOf (createApPowerStateReq env now .ON) from rfl]
      rw [show ({ removeValuesForProperty store1 env.AP_POWER_STATE_REQ with
                    values := aset (removeValuesForProperty store1
                                      env.AP_POWER_STATE_REQ).values
                                (keyOf (createApPowerStateReq env now .ON))
                                (createApPowerStateReq env now .ON) } :
              PropStore).values =
            aset (removeValuesForProperty store1 env.AP_POWER_STATE_REQ).values
              (keyOf (createApPowerStateReq env now .ON))
              (createApPowerStateReq env now .ON) from rfl]
      rw [alookup_aset_self]
    · intro a ha
      have hkne : ({ propId := env.AP_POWER_STATE_REQ, areaId := a } : PropIdAreaId) ≠
          keyOf (createApPowerStateReq env now .ON) := by
        intro hcc
        exact ha (congrArg PropIdAreaId.areaId hcc)
      show alookup (aset (removeValuesForProperty store1 env.AP_POWER_STATE_REQ).values
          (keyOf (createApPowerStateReq env now .ON))
          (createApPowerStateReq env now .ON))
          { propId := env.AP_POWER_STATE_REQ, areaId := a } = none
      rw [alookup_aset_ne _ _ _ _ hkne]
      show alookup (aremoveProp store1.values env.AP_POWER_STATE_REQ)
          { propId := env.AP_POWER_STATE_REQ, areaId := a } = none
      rw [alookup_aremoveProp]
      simp
  · intro hB
    have hnotA : ¬ (s = VehicleApPowerStateReport.DEEP_SLEEP_EXIT.toInt ∨
        s = VehicleApPowerStateReport.HIBERNATION_EXIT.toInt ∨
        s = VehicleApPowerStateReport.SHUTDOWN_CANCELLED.toInt ∨
        s = VehicleApPowerStateReport.WAIT_FOR_VHAL.toInt) := by
      rcases hB with h | h | h <;> subst h <;> decide
    have hreqw := writeValue_ok_of_updateStatus store1
      (createApPowerStateReq env now .FINISHED) hreqcfg1
    have hrun : setApPowerStateReport env store now v =
        .ok { store1 with
                values := aset store1.values
                            (keyOf (createApPowerStateReq env now .FINISHED))
                            (createApPowerStateReq env now .FINISHED) } := by
      unfold setApPowerStateReport
      simp only [hw1, hstate]
      rw [if_neg hnotA, if_pos hB, hreqw]
    refine ⟨_, hrun, ?_⟩
    unfold readValue
    rw [show ({ propId := env.AP_POWER_STATE_REQ, areaId := 0 } : PropIdAreaId) =
          keyOf (createApPowerStateReq env now .FINISHED) from rfl]
    rw [show ({ store1 with
                  values := aset store1.values
                              (keyOf (createApPowerStateReq env now .FINISHED))
                              (createApPowerStateReq env now .FINISHED) } :
            PropStore).values =
          aset store1.values (keyOf (createApPowerStateReq env now .FINISHED))
            (createApPowerStateReq env now .FINISHED) from rfl]
    rw [alookup_aset_self]
  · intro hC
    obtain ⟨h3, h10, h8, h1, h2, h9, h5⟩ := hC
    have hrun : setApPowerStateReport env store now v = .ok store1 := by
      unfold setApPowerStateReport
      simp only [hw1, hstate]
      rw [if_neg (by simp [h3, h10, h8, h1]), if_neg (by simp [h2, h9, h5])]
    refine ⟨store1, hrun, ?_⟩
    intro a
    apply hother1
    intro hcc
    exact hne (congrArg PropIdAreaId.propId hcc).symm

/-- A concrete store with both AP power state properties registered
globally and nothing stored. -/
def storePower : PropStore :=
  { configs := [{ prop := 289475073, areaIds := [] },
                { prop := 289475072, areaIds := [] }],
    values := [] }

/-- A WAIT_FOR_VHAL power-state report value. -/
def reportWaitForVhal : VehiclePropValue := mkInt32Val 289475073 0 0 [1, 0]

theorem setApPowerStateReport_spec_witness :
    ∃ store', setApPowerStateReport envT storePower 7 reportWaitForVhal = .ok store' ∧
      readValue store' envT.AP_POWER_STATE_REQ 0 =
        .ok (createApPowerStateReq envT 7 .ON) ∧
      ∀ a, a ≠ 0 →
        alookup store'.values { propId := envT.AP_POWER_STATE_REQ, areaId := a } =
          none := by
  exact (setApPowerStateReport_spec envT storePower 7 reportWaitForVhal 1 rfl
    (by decide) (by decide) (by decide)).1 (Or.inr (Or.inr (Or.inr rfl)))

/-- How one `updateSampleRate` call changes the `mRecurrentActions` map:
a zero rate leaves it untouched (no erase), a nonzero rate records the
fresh action for the key. -/
theorem updateSampleRate_recurrentActions (st : FakeState) (p a : Int) (r : Rat) :
    (updateSampleRate st p a r).1.recurrentActions =
      if r = 0 then st.recurrentActions
      else aset st.recurrentActions { propId := p, areaId := a } st.nextActionId := by
  unfold updateSampleRate
  by_cases hr : r = 0 <;>
    cases h : alookup st.recurrentActions { propId := p, areaId := a } <;>
    simp [hr, h]

/-- Apply a sequence of `updateSampleRate` calls
(`(propId, areaId, rate)` triples). -/
def applyRateCalls (st : FakeState) (calls : List (Int × Int × Rat)) : FakeState :=
  calls.foldl (fun s c => (updateSampleRate s c.1 c.2.1 c.2.2).1) st

/-- C3 counterexample: requesting rate 1 then rate 0 for key (1, 0) — the
final call returns OK, yet the `mRecurrentActions` map entry for the key
still exists (bound to action 0) even though the most recently requested
sample rate is zero: `updateSampleRate(p, a, 0)` does not remove the map
entry. -/
theorem updateSampleRate_zero_keeps_entry :
    (updateSampleRate (updateSampleRate stEmpty 1 0 1).1 1 0 0).2 = .OK ∧
    alookup ((updateSampleRate (updateSampleRate stEmpty 1 0 1).1 1 0 0).1).recurrentActions
      { propId := 1, areaId := 0 } = some 0 ∧
    alookup ((updateSampleRate (updateSampleRate stEmpty 1 0 1).1 1 0 0).1).recurrentActions
      { propId := 1, areaId := 0 } ≠ none := by
  refine ⟨by decide, by decide, by decide⟩

/-- After a sequence of `updateSampleRate` calls, a `mRecurrentActions`
entry for a key is present iff it was present initially or some call of
the sequence requested a nonzero rate for that key. -/
theorem alookup_applyRateCalls_ne_none (calls : List (Int × Int × Rat)) :
    ∀ (st : FakeState) (key : PropIdAreaId),
      (alookup (applyRateCalls st calls).recurrentActions key ≠ none ↔
        (alookup st.recurrentActions key ≠ none ∨
          ∃ c ∈ calls, ({ propId := c.1, areaId := c.2.1 } : PropIdAreaId) = key ∧
            c.2.2 ≠ 0)) := by
  induction calls with
  | nil => intro st key; simp [applyRateCalls]
  | cons c tl ih =>
      intro st key
      have hstep :
          alookup (updateSampleRate st c.1 c.2.1 c.2.2).1.recurrentActions key ≠ none ↔
            (alookup st.recurrentActions key ≠ none ∨
              (({ propId := c.1, areaId := c.2.1 } : PropIdAreaId) = key ∧
                c.2.2 ≠ 0)) := by
        rw [updateSampleRate_recurrentActions]
        by_cases hr : c.2.2 = 0
        · simp [hr]
        · by_cases hk : ({ propId := c.1, areaId := c.2.1 } : PropIdAreaId) = key
          · rw [if_neg hr, ← hk, alookup_aset_self]
            simp [hk, hr]
          · rw [if_neg hr,
              alookup_aset_ne st.recurrentActions _ key st.nextActionId
                (fun hh => hk hh.symm)]
            simp [hk]
      have htl := ih (updateSampleRate st c.1 c.2.1 c.2.2).1 key
      rw [show applyRateCalls st (c :: tl) =
            applyRateCalls (updateSampleRate st c.1 c.2.1 c.2.2).1 tl from rfl] at *
      rw [htl, hstep]
      simp only [List.mem_cons]
      constructor
      · rintro ((h | h) | h)
        · exact Or.inl h
        · exact Or.inr ⟨c, Or.inl rfl, h⟩
        · obtain ⟨x, hx, hxx⟩ := h
          exact Or.inr ⟨x, Or.inr hx, hxx⟩
      · rintro (h | ⟨x, hx | hx, hxx⟩)
        · exact Or.inl (Or.inl h)
        · subst hx
          exact Or.inl (Or.inr hxx)
        · exact Or.inr ⟨x, hx, hxx⟩

/-- C3 (amended): after any sequence of `updateSampleRate` calls starting
from a state whose action map is empty, a `mRecurrentActions` entry for a
key exists iff some call in the sequence requested a nonzero sample rate
for that key — entries are never erased: in particular a zero-rate call
leaves the map exactly as it was (though it does unregister the key's
timer callback). -/
theorem recurrentActions_entry_iff_ever_nonzero (st0 : FakeState)
    (hinit : st0.recurrentActions = []) (calls : List (Int × Int × Rat))
    (key : PropIdAreaId) (p a : Int) (st : FakeState) :
    (alookup (applyRateCalls st0 calls).recurrentActions key ≠ none ↔
      ∃ c ∈ calls, ({ propId := c.1, areaId := c.2.1 } : PropIdAreaId) = key ∧
        c.2.2 ≠ 0) ∧
    (updateSampleRate st p a 0).1.recurrentActions = st.recurrentActions := by
  constructor
  · rw [alookup_applyRateCalls_ne_none calls st0 key]
    rw [hinit]
    simp [alookup]
  · rw [updateSampleRate_recurrentActions]
    simp

theorem recurrentActions_entry_iff_ever_nonzero_witness :
    ((alookup (applyRateCalls stEmpty [(1, 0, 1), (1, 0, 0)]).recurrentActions
        { propId := 1, areaId := 0 } ≠ none) ↔
      ∃ c ∈ [((1 : Int), (0 : Int), (1 : Rat)), (1, 0, 0)],
        ({ propId := c.1, areaId := c.2.1 } : PropIdAreaId) =
          { propId := 1, areaId := 0 } ∧ c.2.2 ≠ 0) ∧
    (updateSampleRate stEmpty 2 3 0).1.recurrentActions =
      stEmpty.recurrentActions := by
  exact recurrentActions_entry_iff_ever_nonzero stEmpty rfl [(1, 0, 1), (1, 0, 0)]
    { propId := 1, areaId := 0 } 2 3 stEmpty

/-- Under the bookkeeping invariant, the unregistration step at the top
of `updateSampleRate` removes exactly the timer registrations whose key
is the call's key. -/
theorem regs_after_unregister (st : FakeState) (key : PropIdAreaId)
    (hwf : actionsWF st) (r : TimerReg) :
    (r ∈ (match alookup st.recurrentActions key with
          | some aid => unregisterTimerCallback st.timerRegs aid
          | none => st.timerRegs)) ↔ (r ∈ st.timerRegs ∧ r.key ≠ key) := by
  obtain ⟨hwf1, _, hwf3⟩ := hwf
  cases h : alookup st.recurrentActions key with
  | none =>
      simp only []
      constructor
      · intro hr
        refine ⟨hr, ?_⟩
        intro hk
        have hcontra := hwf1 r hr
        rw [hk, h] at hcontra
        cases hcontra
      · intro hr
        exact hr.1
  | some aid =>
      unfold unregisterTimerCallback
      rw [List.mem_filter]
      constructor
      · rintro ⟨hr, hne⟩
        refine ⟨hr, ?_⟩
        intro hk
        have heq := hwf1 r hr
        rw [hk, h] at heq
        injection heq with heq
        rw [heq] at hne
        simp at hne
      · rintro ⟨hr, hkne⟩
        refine ⟨hr, ?_⟩
        have heq := hwf1 r hr
        simp only [bne_iff_ne, ne_eq]
        intro hcc
        rw [hcc] at heq
        exact hkne (hwf3 r.key key aid heq h)

/-- C5: `updateSampleRate(p, a, 0)` returns OK and unregisters the key's
recurrent timer callback — afterwards no timer registration for (p, a)
remains (all other keys' registrations are untouched) and the store is
untouched, so no further periodic writes occur for the key.
`updateSampleRate(p, a, r)` with `r ≠ 0` registers exactly one action
for the key, at interval `1e9 / r` nanoseconds truncated to an integer,
replacing any prior action for the key, and records it in
`mRecurrentActions`; each firing of the registered refresh action re-reads
the key's current value (leaving everything unchanged when the read
fails), restamps it with a fresh timestamp, removes the stored value, and
rewrites it into the store — so the rewrite always fires a change
notification carrying the restamped value. -/
theorem updateSampleRate_timer_behavior (st : FakeState) (p a : Int) (rate : Rat)
    (hwf : actionsWF st) :
    ((updateSampleRate st p a rate).2 = .OK) ∧
    (rate = 0 →
      (∀ r, r ∈ (updateSampleRate st p a rate).1.timerRegs ↔
        (r ∈ st.timerRegs ∧ r.key ≠ { propId := p, areaId := a })) ∧
      (updateSampleRate st p a rate).1.store = st.store) ∧
    (rate ≠ 0 →
      ((updateSampleRate st p a rate).1.timerRegs.filter
          (fun r => decide (r.key = { propId := p, areaId := a })) =
        [{ actionId := st.nextActionId, key := { propId := p, areaId := a },
           intervalNanos := ratTruncToInt (1000000000 / rate) }]) ∧
      alookup (updateSampleRate st p a rate).1.recurrentActions
        { propId := p, areaId := a } = some st.nextActionId) ∧
    (∀ env store now e,
      getValue env store now (probeValue p a) = .error e →
        fireRecurrentAction env store now p a = (store, none)) ∧
    (∀ env store now w,
      getValue env store now (probeValue p a) = .ok w →
      configAllows store.configs w.prop w.areaId = true →
        readValue (fireRecurrentAction env store now p a).1 w.prop w.areaId =
          .ok { w with timestamp := now } ∧
        (fireRecurrentAction env store now p a).2 =
          some { w with timestamp := now }) := by
  refine ⟨?_, ?_, ?_, ?_, ?_⟩
  · unfold updateSampleRate
    by_cases hr : rate = 0 <;>
      cases h : alookup st.recurrentActions { propId := p, areaId := a } <;>
      simp [hr, h]
  · intro hr
    constructor
    · intro r
      have hregs : (updateSampleRate st p a rate).1.timerRegs =
          (match alookup st.recurrentActions { propId := p, areaId := a } with
           | some aid => unregisterTimerCallback st.timerRegs aid
           | none => st.timerRegs) := by
        unfold updateSampleRate
        cases h : alookup st.recurrentActions { propId := p, areaId := a } <;>
          simp [hr, h]
      rw [hregs]
      exact regs_after_unregister st { propId := p, areaId := a } hwf r
    · unfold updateSampleRate
      cases h : alookup st.recurrentActions { propId := p, areaId := a } <;>
        simp [hr, h]
  · intro hr
    have hregs : (updateSampleRate st p a rate).1.timerRegs =
        (match alookup st.recurrentActions { propId := p, areaId := a } with
         | some aid => unregisterTimerCallback st.timerRegs aid
         | none => st.timerRegs) ++
          [{ actionId := st.nextActionId, key := { propId := p, areaId := a },
             intervalNanos := ratTruncToInt (1000000000 / rate) }] := by
      unfold updateSampleRate
      cases h : alookup st.recurrentActions { propId := p, areaId := a } <;>
        simp [hr, h]
    constructor
    · rw [hregs, List.filter_append]
      have hleft : ((match alookup st.recurrentActions { propId := p, areaId := a } with
           | some aid => unregisterTimerCallback st.timerRegs aid
           | none => st.timerRegs : List TimerReg)).filter
          (fun (r : TimerReg) => decide (r.key = { propId := p, areaId := a })) = [] := by
        rw [List.filter_eq_nil_iff]
        intro r hr'
        have hmem := (regs_after_unregister st { propId := p, areaId := a } hwf r).mp hr'
        simpa using hmem.2
      rw [hleft]
      simp
    · rw [updateSampleRate_recurrentActions, if_neg hr, alookup_aset_self]
  · intro env store now e h
    unfold fireRecurrentAction
    rw [h]
  · intro env store now w h hcfg
    have hkey : keyOf { w with timestamp := now } =
        ({ propId := w.prop, areaId := w.areaId } : PropIdAreaId) := rfl
    have hw : writeValue (removeValue store { w with timestamp := now })
        { w with timestamp := now } false =
        .ok ({ removeValue store { w with timestamp := now } with
                values := aset (removeValue store
                                  { w with timestamp := now }).values
                            (keyOf { w with timestamp := now })
                            { w with timestamp := now } },
             some { w with timestamp := now }) := by
      apply writeValue_ok_of_none
      · exact hcfg
      · show alookup (aremove store.values (keyOf { w with timestamp := now }))
            (keyOf { w with timestamp := now }) = none
        rw [alookup_aremove]
        simp
    have hfire : fireRecurrentAction env store now p a =
        ({ removeValue store { w with timestamp := now } with
            values := aset (removeValue store { w with timestamp := now }).values
                        (keyOf { w with timestamp := now })
                        { w with timestamp := now } },
         some { w with timestamp := now }) := by
      unfold fireRecurrentAction
      rw [h]
      show (match writeValue (removeValue store { w with timestamp := now })
              { w with timestamp := now } false with
            | .error _ => (removeValue store { w with timestamp := now }, none)
            | .ok (store2, event) => (store2, event)) = _
      rw [hw]
    rw [hfire]
    constructor
    · unfold readValue
      rw [show ({ propId := w.prop, areaId := w.areaId } : PropIdAreaId) =
            keyOf { w with timestamp := now } from rfl]
      rw [show ({ removeValue store { w with timestamp := now } with
                    values := aset (removeValue store
                                      { w with timestamp := now }).values
                                (keyOf { w with timestamp := now })
                                { w with timestamp := now } } : PropStore).values =
            aset (removeValue store { w with timestamp := now }).values
              (keyOf { w with timestamp := now }) { w with timestamp := now } from rfl]
      rw [alookup_aset_self]
    · rfl

theorem updateSampleRate_timer_behavior_witness :
    ((updateSampleRate stEmpty 1 0 2).2 = .OK) ∧
    ((updateSampleRate stEmpty 1 0 2).1.timerRegs.filter
        (fun r => decide (r.key = { propId := 1, areaId := 0 })) =
      [{ actionId := stEmpty.nextActionId, key := { propId := 1, areaId := 0 },
         intervalNanos := ratTruncToInt (1000000000 / 2) }]) ∧
    (ratTruncToInt (1000000000 / 2) = 500000000) ∧
    (fireRecurrentAction envT storeT 3 1 0 = (storeT, none)) ∧
    (readValue (fireRecurrentAction envT storeC6 4 1 0).1 1 0 =
      .ok { v5C6 with timestamp := 4 }) := by
  have hwf : actionsWF stEmpty := by
    refine ⟨?_, ?_, ?_⟩
    · intro r hr
      simp [stEmpty] at hr
    · intro k aid h
      simp [stEmpty, alookup] at h
    · intro k1 k2 aid h1 h2
      simp [stEmpty, alookup] at h1
  have h := updateSampleRate_timer_behavior stEmpty 1 0 2 hwf
  refine ⟨h.1, ?_, ?_, ?_, ?_⟩
  · exact (h.2.2.1 (by decide)).1
  · have h1 : (1000000000 : Rat) / 2 = 500000000 := by norm_num
    unfold ratTruncToInt
    rw [h1, if_pos (by norm_num)]
    decide
  · exact h.2.2.2.1 envT storeT 3 .NOT_AVAILABLE (by decide)
  · exact (h.2.2.2.2 envT storeC6 4 v5C6 (by decide) (by decide)).1

end FakeVehicle
